import Mathlib

/-!
# Car racing game (src/main.cpp): embedding and verified properties

The program is a single-threaded SDL2 game.  Everything that matters for the
game play lives in global variables that are read and written by the main
loop: every iteration first drains the pending input events and then runs the
game logic of the current session state.

Modelling choices

* C++ `int` variables are `Int`.  Signed overflow is undefined behaviour in
  C++; the development describes the executions on which no `int` overflows.
* `Uint32` tick values are `Nat` with an explicit reduction modulo `2^32`.
* `std::vector` is `List`; `v[i]` is `List.getD` and `v[i] = e` is `List.set`.
* `rand()` reads the head of a stream of non-negative integers carried by the
  state; the stream is arbitrary, so every C library implementation is covered.
* `SDL_GetTicks()` is an input of the step that calls it.
* Rendering calls do not touch the game variables and are left out.
-/

namespace CarGame

/-! ## Constants and data model (main.cpp lines 13-41) -/

/-- Screen width, line 14. -/
def SCREEN_WIDTH : Int := 580

/-- Screen height, line 15. -/
def SCREEN_HEIGHT : Int := 720

/-- Car movement speed, line 29; never assigned after its initialisation. -/
def carSpeed : Int := 5

/-- Number of values of the `Uint32` type. -/
def UINT32_SIZE : Nat := 4294967296

/-- Subtraction of two `Uint32` values, as C++ performs it (modulo `2^32`). -/
def uint32Sub (a b : Nat) : Nat :=
  (a % UINT32_SIZE + (UINT32_SIZE - b % UINT32_SIZE)) % UINT32_SIZE

/-- The session state, line 40. -/
inductive GameState where
  | WAITING
  | PLAYING
  | GAME_OVER
  deriving DecidableEq, Repr

/-- The four integer fields of an `SDL_Rect`. -/
structure SDL_Rect where
  x : Int
  y : Int
  w : Int
  h : Int
  deriving DecidableEq, Repr

/-- The key codes the program distinguishes (lines 72-113); every other key is `other`. -/
inductive Keycode where
  | SDLK_o
  | SDLK_a
  | SDLK_d
  | SDLK_ESCAPE
  | SDLK_r
  | SDLK_q
  | other
  deriving DecidableEq, Repr

/-- The event kinds the program distinguishes (lines 68, 71, 106). -/
inductive SDL_Event where
  | SDL_QUIT
  | SDL_KEYDOWN (sym : Keycode)
  | SDL_KEYUP (sym : Keycode)
  | other
  deriving DecidableEq, Repr

/-- The global variables of lines 18-41, the local `quit` of `main` (line 62) and the
stream of the values that the coming calls of `rand()` return. -/
structure Game where
  ENEMY_SPEED : Int
  carX : Int
  carY : Int
  enemyX : List Int
  enemyY : List Int
  enemyFlag : List Bool
  score : Int
  moveLeft : Bool
  moveRight : Bool
  lastSpeedIncreaseTime : Nat
  trackOffsetY : Int
  gameState : GameState
  quit : Bool
  randStream : Nat → Nat

/-- The state when the main loop is entered: the initial values of lines 18-41 and 62. -/
def initialGame (rs : Nat → Nat) : Game :=
  { ENEMY_SPEED := 2
    carX := SCREEN_WIDTH / 2 - 20
    carY := 3 * SCREEN_HEIGHT / 4
    enemyX := []
    enemyY := []
    enemyFlag := []
    score := 0
    moveLeft := false
    moveRight := false
    lastSpeedIncreaseTime := 0
    trackOffsetY := 0
    gameState := GameState.WAITING
    quit := false
    randStream := rs }

/-! ## Collision test (lines 288-290) -/

/-- Modelled from the spec: `SDL_HasIntersection` belongs to the SDL2 library and is not
under src/.  The spec (4.5) describes it as the standard interval-overlap test on the x
and y ranges.  The body follows the algorithm of the library: a rectangle without area
(`w <= 0` or `h <= 0`) intersects nothing; otherwise, on each axis, the larger of the two
lower ends has to lie strictly below the smaller of the two upper ends. -/
def SDL_HasIntersection (A B : SDL_Rect) : Bool :=
  if A.w ≤ 0 ∨ A.h ≤ 0 ∨ B.w ≤ 0 ∨ B.h ≤ 0 then false
  else
    let Amin := A.x
    let Amax := Amin + A.w
    let Bmin := B.x
    let Bmax := Bmin + B.w
    let Amin := if Bmin > Amin then Bmin else Amin
    let Amax := if Bmax < Amax then Bmax else Amax
    if Amax ≤ Amin then false
    else
      let Amin := A.y
      let Amax := Amin + A.h
      let Bmin := B.y
      let Bmax := Bmin + B.h
      let Amin := if Bmin > Amin then Bmin else Amin
      let Amax := if Bmax < Amax then Bmax else Amax
      if Amax ≤ Amin then false else true

/-- The function `checkCollision`, lines 288-290. -/
def checkCollision (carRect enemyRect : SDL_Rect) : Bool :=
  SDL_HasIntersection carRect enemyRect

/-! ## Obstacle creation and reset (lines 292-298 and 357-367) -/

/-- The call `rand()`: the value returned and the state after the call. -/
def rand (s : Game) : Nat × Game :=
  (s.randStream 0, { s with randStream := fun n => s.randStream (n + 1) })

/-- The body of the loop of `createEnemies`, lines 294-296, for the index `i`. -/
def createEnemy (s : Game) (i : Nat) : Game :=
  let (r, s) := rand s
  { s with
    enemyX := s.enemyX ++ [20 + ((i % 3 : Nat) : Int) * 200 + ((r % 100 : Nat) : Int)]
    enemyY := s.enemyY ++ [-40 - ((i : Int) * 100)]
    enemyFlag := s.enemyFlag ++ [true] }

/-- The function `createEnemies`, lines 292-298: the loop runs for `i = 0, ..., numEnemies - 1`. -/
def createEnemies (s : Game) (numEnemies : Nat) : Game :=
  (List.range numEnemies).foldl createEnemy s

/-- The function `resetGame`, lines 357-367; `ticks` is what `SDL_GetTicks()` returns. -/
def resetGame (s : Game) (ticks : Nat) : Game :=
  let s := { s with carX := SCREEN_WIDTH / 2 - 20 }
  let s := { s with carY := 3 * SCREEN_HEIGHT / 4 }
  let s := { s with ENEMY_SPEED := 2 }
  let s := { s with enemyX := [] }
  let s := { s with enemyY := [] }
  let s := { s with enemyFlag := [] }
  let s := createEnemies s 6
  let s := { s with lastSpeedIncreaseTime := ticks % UINT32_SIZE }
  { s with score := 0 }

/-! ## The main loop (lines 66-172) -/

/-- The body of the event loop, lines 68-115, for one polled event; `ticks` is what
`SDL_GetTicks()` returns if the handler calls it. -/
def handleEvent (s : Game) (e : SDL_Event) (ticks : Nat) : Game :=
  match e with
  | SDL_Event.SDL_QUIT => { s with quit := true }
  | SDL_Event.SDL_KEYDOWN sym =>
    match sym with
    | Keycode.SDLK_o =>
      if s.gameState = GameState.WAITING then
        let s := { s with gameState := GameState.PLAYING }
        let s := createEnemies s 6
        let s := { s with lastSpeedIncreaseTime := ticks % UINT32_SIZE }
        { s with score := 0 }
      else s
    | Keycode.SDLK_a =>
      if s.gameState = GameState.PLAYING then { s with moveLeft := true } else s
    | Keycode.SDLK_d =>
      if s.gameState = GameState.PLAYING then { s with moveRight := true } else s
    | Keycode.SDLK_ESCAPE =>
      if s.gameState = GameState.GAME_OVER then { s with quit := true } else s
    | Keycode.SDLK_r =>
      if s.gameState = GameState.GAME_OVER then
        let s := resetGame s ticks
        { s with gameState := GameState.PLAYING }
      else s
    | Keycode.SDLK_q =>
      if s.gameState = GameState.GAME_OVER then { s with quit := true } else s
    | Keycode.other => s
  | SDL_Event.SDL_KEYUP sym =>
    match sym with
    | Keycode.SDLK_a => { s with moveLeft := false }
    | Keycode.SDLK_d => { s with moveRight := false }
    | _ => s
  | SDL_Event.other => s

/-- Lines 123-124: the car moves by `carSpeed` for each movement flag that is set. -/
def moveCar (s : Game) : Game :=
  let s := if s.moveLeft ∧ s.carX > 0 then { s with carX := s.carX - carSpeed } else s
  if s.moveRight ∧ s.carX < SCREEN_WIDTH - 100 then { s with carX := s.carX + carSpeed } else s

/-- Lines 127-131: the speed grows by one when 5000 ms have passed since the last increase. -/
def increaseSpeed (s : Game) (ticks : Nat) : Game :=
  let currentTime := ticks % UINT32_SIZE
  if uint32Sub currentTime s.lastSpeedIncreaseTime ≥ 5000 then
    { s with ENEMY_SPEED := s.ENEMY_SPEED + 1, lastSpeedIncreaseTime := currentTime }
  else s

/-- Lines 137-140: the track scrolls by the speed and starts again at 0. -/
def moveTrack (s : Game) : Game :=
  let s := { s with trackOffsetY := s.trackOffsetY + s.ENEMY_SPEED }
  if s.trackOffsetY ≥ SCREEN_HEIGHT then { s with trackOffsetY := 0 } else s

/-- Line 148: the obstacle `i` falls by the speed. -/
def advanceEnemy (s : Game) (i : Nat) : Game :=
  { s with enemyY := s.enemyY.set i (s.enemyY.getD i 0 + s.ENEMY_SPEED) }

/-- Lines 150-152: the obstacle `i` goes back above the screen, at a new random place of
its lane, and the score grows by one. -/
def recycleEnemy (s : Game) (i : Nat) : Game :=
  let s := { s with enemyY := s.enemyY.set i (-40) }
  let (r, s) := rand s
  let s := { s with
    enemyX := s.enemyX.set i (20 + ((i % 3 : Nat) : Int) * 200 + ((r % 100 : Nat) : Int)) }
  { s with score := s.score + 1 }

/-- Lines 157-161: the collision test of the car against the obstacle `i`. -/
def collideEnemy (s : Game) (i : Nat) : Game :=
  let carRect : SDL_Rect := ⟨s.carX, s.carY, 70, 70⟩
  let enemyRect : SDL_Rect := ⟨s.enemyX.getD i 0, s.enemyY.getD i 0, 40, 40⟩
  if checkCollision carRect enemyRect then { s with gameState := GameState.GAME_OVER } else s

/-- The body of the loop over the obstacles, lines 147-162, for the index `i`. -/
def updateEnemy (s : Game) (i : Nat) : Game :=
  if s.enemyFlag.getD i false then
    let s := advanceEnemy s i
    let s := if s.enemyY.getD i 0 > SCREEN_HEIGHT then recycleEnemy s i else s
    collideEnemy s i
  else s

/-- The loop of lines 146-163: `i` runs from 0 to `enemyX.size() - 1`; the body never
changes the size of `enemyX`. -/
def updateEnemies (s : Game) : Game :=
  (List.range s.enemyX.length).foldl updateEnemy s

/-- The branch of the game logic taken when the session is `PLAYING`, lines 122-165;
`ticks` is what `SDL_GetTicks()` returns at line 127. -/
def playingFrame (s : Game) (ticks : Nat) : Game :=
  updateEnemies (moveTrack (increaseSpeed (moveCar s) ticks))

/-- The game logic of one iteration of the main loop, lines 119-168.  The branches for
`WAITING` and `GAME_OVER` only draw. -/
def gameLogic (s : Game) (ticks : Nat) : Game :=
  match s.gameState with
  | GameState.WAITING => s
  | GameState.PLAYING => playingFrame s ticks
  | GameState.GAME_OVER => s

/-- The states the program can be in: the initial state, and every state obtained from
a reachable state by handling one event or by running the game logic of one frame.  An
iteration of the main loop handles the pending events one after the other and then runs
the game logic once, so every state of an execution is of this kind.  The steps are also
allowed when `quit` is set; this only makes the set larger. -/
inductive Reachable : Game → Prop where
  | start (rs : Nat → Nat) : Reachable (initialGame rs)
  | event (s : Game) (e : SDL_Event) (ticks : Nat) :
      Reachable s → Reachable (handleEvent s e ticks)
  | frame (s : Game) (ticks : Nat) : Reachable s → Reachable (gameLogic s ticks)

/-! ## Definitions that follow the words of the specification -/

/-- The obstacle `i` is recycled in a frame that runs with speed `speed`: it is active and
its y coordinate, once advanced, exceeds the screen height. -/
def recycles (s : Game) (speed : Int) (i : Nat) : Bool :=
  s.enemyFlag.getD i false && decide (s.enemyY.getD i 0 + speed > SCREEN_HEIGHT)

/-- Number of the obstacles with an index below `k` recycled in a frame that runs with
speed `speed`. -/
def recycledBelow (s : Game) (speed : Int) (k : Nat) : Nat :=
  ((List.range k).filter (recycles s speed)).length

/-- Number of the obstacles recycled in a frame that runs with speed `speed`. -/
def recycledCount (s : Game) (speed : Int) : Nat :=
  recycledBelow s speed s.enemyX.length

/-! ## Auxiliary notions for the proofs, taken from the source -/

/-- The state of the obstacle loop of lines 146-163 after its first `k` iterations. -/
def enemiesUpTo (s : Game) (k : Nat) : Game :=
  (List.range k).foldl updateEnemy s

/-- The box of the car, line 157. -/
def carBox (s : Game) : SDL_Rect :=
  ⟨s.carX, s.carY, 70, 70⟩

/-- The box of the obstacle `i`, line 158. -/
def enemyBox (s : Game) (i : Nat) : SDL_Rect :=
  ⟨s.enemyX.getD i 0, s.enemyY.getD i 0, 40, 40⟩

/-- The x coordinate that a spawn in lane `i % 3` with the random value `r` produces. -/
def spawnX (i r : Nat) : Int :=
  20 + ((i % 3 : Nat) : Int) * 200 + ((r % 100 : Nat) : Int)

/-- The y coordinate at which the obstacle `i` is created. -/
def spawnY (i : Nat) : Int :=
  -40 - ((i : Int) * 100)

/-- The state of a `PLAYING` frame when the loop over the obstacles starts, lines 123-140. -/
def beforeEnemies (s : Game) (ticks : Nat) : Game :=
  moveTrack (increaseSpeed (moveCar s) ticks)

/-- The variables that the body of the obstacle loop never writes, and the sizes of the
vectors, agree in the two states. -/
structure SameFrame (s s' : Game) : Prop where
  speed : s'.ENEMY_SPEED = s.ENEMY_SPEED
  carX : s'.carX = s.carX
  carY : s'.carY = s.carY
  flag : s'.enemyFlag = s.enemyFlag
  lenX : s'.enemyX.length = s.enemyX.length
  lenY : s'.enemyY.length = s.enemyY.length
  moveLeft : s'.moveLeft = s.moveLeft
  moveRight : s'.moveRight = s.moveRight
  time : s'.lastSpeedIncreaseTime = s.lastSpeedIncreaseTime
  track : s'.trackOffsetY = s.trackOffsetY
  quit : s'.quit = s.quit

/-- The facts that hold in every state the program can be in. -/
structure Inv (s : Game) : Prop where
  carLo : 0 ≤ s.carX
  carHi : s.carX ≤ 480
  carStep : s.carX % 5 = 0
  speed : 2 ≤ s.ENEMY_SPEED
  score : 0 ≤ s.score
  trackLo : 0 ≤ s.trackOffsetY
  trackHi : s.trackOffsetY < 720
  lenY : s.enemyY.length = s.enemyX.length
  lenF : s.enemyFlag.length = s.enemyX.length
  waiting : s.gameState = GameState.WAITING → s.enemyX.length = 0 ∧ s.ENEMY_SPEED = 2
  started : s.gameState ≠ GameState.WAITING → s.enemyX.length = 6
  time : s.lastSpeedIncreaseTime < UINT32_SIZE

/-! ## Concrete states used to exercise the theorems -/

/-- A stream of values for `rand()`. -/
def sampleStream : Nat → Nat :=
  fun n => 37 * n + 15

/-- The state in which the main loop is entered, with `sampleStream`. -/
def sampleWaiting : Game :=
  initialGame sampleStream

/-- The state after the start key was pressed at tick 1000 in `sampleWaiting`. -/
def sampleStart : Game :=
  handleEvent sampleWaiting (SDL_Event.SDL_KEYDOWN Keycode.SDLK_o) 1000

/-- A state in the middle of a game: obstacle 0 is about to leave the screen, obstacle 1
is about to reach the car and the left key is held. -/
def sampleCrash : Game :=
  { ENEMY_SPEED := 3
    carX := 270
    carY := 540
    enemyX := [50, 280, 450, 60, 290, 460]
    enemyY := [719, 498, 300, 200, 100, 0]
    enemyFlag := [true, true, true, true, true, true]
    score := 7
    moveLeft := true
    moveRight := false
    lastSpeedIncreaseTime := 6000
    trackOffsetY := 718
    gameState := GameState.PLAYING
    quit := false
    randStream := sampleStream }

/-- The state after the frame at tick 6016 in `sampleCrash`: the car was hit. -/
def sampleGameOver : Game :=
  gameLogic sampleCrash 6016

/-! ## Obstacle creation -/

theorem createEnemies_eq (s : Game) (n : Nat) :
    createEnemies s n =
      { s with
        enemyX := s.enemyX ++ (List.range n).map (fun i => spawnX i (s.randStream i))
        enemyY := s.enemyY ++ (List.range n).map spawnY
        enemyFlag := s.enemyFlag ++ List.replicate n true
        randStream := fun k => s.randStream (k + n) } := by
  induction n with
  | zero => simp [createEnemies]
  | succ n ih =>
    have hstep : createEnemies s (n + 1) = createEnemy (createEnemies s n) n := by
      simp [createEnemies, List.range_succ, List.foldl_append]
    rw [hstep, ih]
    simp only [createEnemy, rand, spawnX, spawnY, List.range_succ, List.map_append, List.map_cons,
      List.map_nil, List.append_assoc, Nat.zero_add, List.replicate_succ']
    congr 1
    funext k
    congr 1
    omega

/-! ## One pass of the loop over the obstacles -/

theorem getD_set_self {α : Type} (l : List α) (i : Nat) (a d : α) (h : i < l.length) :
    (l.set i a).getD i d = a := by
  simp [h]

theorem getD_set_ne {α : Type} (l : List α) (i j : Nat) (a d : α) (h : i ≠ j) :
    (l.set i a).getD j d = l.getD j d := by
  simp [h]

theorem sameFrame_refl (s : Game) : SameFrame s s :=
  ⟨rfl, rfl, rfl, rfl, rfl, rfl, rfl, rfl, rfl, rfl, rfl⟩

theorem sameFrame_trans {a b c : Game} (h1 : SameFrame a b) (h2 : SameFrame b c) :
    SameFrame a c :=
  ⟨h2.speed.trans h1.speed, h2.carX.trans h1.carX, h2.carY.trans h1.carY,
    h2.flag.trans h1.flag, h2.lenX.trans h1.lenX, h2.lenY.trans h1.lenY,
    h2.moveLeft.trans h1.moveLeft, h2.moveRight.trans h1.moveRight, h2.time.trans h1.time,
    h2.track.trans h1.track, h2.quit.trans h1.quit⟩

theorem advanceEnemy_sameFrame (s : Game) (i : Nat) : SameFrame s (advanceEnemy s i) := by
  constructor <;> simp [advanceEnemy]

theorem recycleEnemy_sameFrame (s : Game) (i : Nat) : SameFrame s (recycleEnemy s i) := by
  constructor <;> simp [recycleEnemy, rand]

theorem collideEnemy_sameFrame (s : Game) (i : Nat) : SameFrame s (collideEnemy s i) := by
  unfold collideEnemy
  simp only []
  split_ifs
  · constructor <;> rfl
  · exact sameFrame_refl s

theorem updateEnemy_inactive (s : Game) (i : Nat) (h : s.enemyFlag.getD i false = false) :
    updateEnemy s i = s := by
  unfold updateEnemy
  rw [if_neg (by rw [h]; decide)]

theorem updateEnemy_active (s : Game) (i : Nat) (h : s.enemyFlag.getD i false = true) :
    updateEnemy s i =
      collideEnemy (if (advanceEnemy s i).enemyY.getD i 0 > SCREEN_HEIGHT
        then recycleEnemy (advanceEnemy s i) i else advanceEnemy s i) i := by
  unfold updateEnemy
  rw [if_pos h]

theorem updateEnemy_sameFrame (s : Game) (i : Nat) : SameFrame s (updateEnemy s i) := by
  cases h : s.enemyFlag.getD i false
  · rw [updateEnemy_inactive s i h]
    exact sameFrame_refl s
  · rw [updateEnemy_active s i h]
    refine sameFrame_trans ?_ (collideEnemy_sameFrame _ i)
    split_ifs
    · exact sameFrame_trans (advanceEnemy_sameFrame s i) (recycleEnemy_sameFrame _ i)
    · exact advanceEnemy_sameFrame s i

theorem updateEnemy_other (s : Game) (i j : Nat) (h : i ≠ j) :
    (updateEnemy s i).enemyX.getD j 0 = s.enemyX.getD j 0 ∧
    (updateEnemy s i).enemyY.getD j 0 = s.enemyY.getD j 0 := by
  cases hf : s.enemyFlag.getD i false
  · rw [updateEnemy_inactive s i hf]
    exact ⟨rfl, rfl⟩
  · rw [updateEnemy_active s i hf]
    unfold collideEnemy
    simp only []
    split_ifs <;> simp [recycleEnemy, advanceEnemy, rand, h]

theorem updateEnemy_at (s : Game) (i : Nat) (hf : s.enemyFlag.getD i false = true)
    (hx : i < s.enemyX.length) (hy : i < s.enemyY.length) :
    (updateEnemy s i).enemyY.getD i 0 =
      (if s.enemyY.getD i 0 + s.ENEMY_SPEED > SCREEN_HEIGHT then -40
        else s.enemyY.getD i 0 + s.ENEMY_SPEED) ∧
    (updateEnemy s i).enemyX.getD i 0 =
      (if s.enemyY.getD i 0 + s.ENEMY_SPEED > SCREEN_HEIGHT then spawnX i (s.randStream 0)
        else s.enemyX.getD i 0) ∧
    (updateEnemy s i).score =
      s.score + (if s.enemyY.getD i 0 + s.ENEMY_SPEED > SCREEN_HEIGHT then 1 else 0) := by
  rw [updateEnemy_active s i hf]
  have hadv : (advanceEnemy s i).enemyY.getD i 0 = s.enemyY.getD i 0 + s.ENEMY_SPEED := by
    unfold advanceEnemy
    exact getD_set_self _ _ _ _ hy
  rw [hadv]
  unfold collideEnemy
  simp only []
  by_cases hc : s.enemyY.getD i 0 + s.ENEMY_SPEED > SCREEN_HEIGHT
  · simp only [if_pos hc]
    split_ifs <;> simp [recycleEnemy, advanceEnemy, rand, spawnX, hx, hy]
  · simp only [if_neg hc]
    split_ifs <;> simp [advanceEnemy, hy]

theorem updateEnemy_gameState (s : Game) (i : Nat) (hf : s.enemyFlag.getD i false = true) :
    (updateEnemy s i).gameState =
      (if checkCollision (carBox (updateEnemy s i)) (enemyBox (updateEnemy s i) i) = true
        then GameState.GAME_OVER else s.gameState) := by
  rw [updateEnemy_active s i hf]
  have hq : (if (advanceEnemy s i).enemyY.getD i 0 > SCREEN_HEIGHT
      then recycleEnemy (advanceEnemy s i) i else advanceEnemy s i).gameState = s.gameState := by
    split_ifs <;> simp [recycleEnemy, advanceEnemy, rand]
  generalize (if (advanceEnemy s i).enemyY.getD i 0 > SCREEN_HEIGHT
    then recycleEnemy (advanceEnemy s i) i else advanceEnemy s i) = q at hq ⊢
  by_cases h : checkCollision ⟨q.carX, q.carY, 70, 70⟩
      ⟨q.enemyX.getD i 0, q.enemyY.getD i 0, 40, 40⟩ = true
  · have hc : collideEnemy q i = { q with gameState := GameState.GAME_OVER } := by
      unfold collideEnemy
      simp only [h, if_true]
    rw [hc]
    simp only [carBox, enemyBox, h, if_true]
  · have hc : collideEnemy q i = q := by
      unfold collideEnemy
      simp only [h, if_false, Bool.false_eq_true]
    rw [hc]
    simp only [carBox, enemyBox, h, if_false, hq, Bool.false_eq_true]

/-! ## The whole loop over the obstacles -/

theorem enemiesUpTo_succ (s : Game) (k : Nat) :
    enemiesUpTo s (k + 1) = updateEnemy (enemiesUpTo s k) k := by
  simp [enemiesUpTo, List.range_succ, List.foldl_append]

theorem enemiesUpTo_sameFrame (s : Game) (k : Nat) : SameFrame s (enemiesUpTo s k) := by
  induction k with
  | zero => exact sameFrame_refl s
  | succ k ih =>
    rw [enemiesUpTo_succ]
    exact sameFrame_trans ih (updateEnemy_sameFrame _ k)

theorem enemiesUpTo_later (s : Game) (k j : Nat) (h : k ≤ j) :
    (enemiesUpTo s k).enemyX.getD j 0 = s.enemyX.getD j 0 ∧
    (enemiesUpTo s k).enemyY.getD j 0 = s.enemyY.getD j 0 := by
  induction k with
  | zero => exact ⟨rfl, rfl⟩
  | succ k ih =>
    rw [enemiesUpTo_succ]
    have h1 := updateEnemy_other (enemiesUpTo s k) k j (by omega)
    have h2 := ih (by omega)
    exact ⟨h1.1.trans h2.1, h1.2.trans h2.2⟩

theorem enemiesUpTo_earlier (s : Game) (i k : Nat) (h : i < k) :
    (enemiesUpTo s k).enemyX.getD i 0 = (enemiesUpTo s (i + 1)).enemyX.getD i 0 ∧
    (enemiesUpTo s k).enemyY.getD i 0 = (enemiesUpTo s (i + 1)).enemyY.getD i 0 := by
  induction k with
  | zero => omega
  | succ k ih =>
    by_cases hik : i = k
    · subst hik
      exact ⟨rfl, rfl⟩
    · rw [enemiesUpTo_succ s k]
      have h1 := updateEnemy_other (enemiesUpTo s k) k i (by omega)
      have h2 := ih (by omega)
      exact ⟨h1.1.trans h2.1, h1.2.trans h2.2⟩

theorem enemiesUpTo_active (s : Game) (i k : Nat) (hik : i < k)
    (hf : s.enemyFlag.getD i false = true)
    (hx : i < s.enemyX.length) (hy : i < s.enemyY.length) :
    (enemiesUpTo s k).enemyY.getD i 0 =
      (if s.enemyY.getD i 0 + s.ENEMY_SPEED > SCREEN_HEIGHT then -40
        else s.enemyY.getD i 0 + s.ENEMY_SPEED) ∧
    (enemiesUpTo s k).enemyX.getD i 0 =
      (if s.enemyY.getD i 0 + s.ENEMY_SPEED > SCREEN_HEIGHT
        then spawnX i ((enemiesUpTo s i).randStream 0) else s.enemyX.getD i 0) := by
  have hsf := enemiesUpTo_sameFrame s i
  have hlater := enemiesUpTo_later s i i (Nat.le_refl i)
  have hat := updateEnemy_at (enemiesUpTo s i) i (by rw [hsf.flag]; exact hf)
    (by rw [hsf.lenX]; exact hx) (by rw [hsf.lenY]; exact hy)
  rw [← enemiesUpTo_succ, hsf.speed, hlater.1, hlater.2] at hat
  have hearlier := enemiesUpTo_earlier s i k hik
  exact ⟨hearlier.2.trans hat.1, hearlier.1.trans hat.2.1⟩

theorem recycledBelow_succ (s : Game) (speed : Int) (k : Nat) :
    recycledBelow s speed (k + 1) =
      recycledBelow s speed k + (if recycles s speed k = true then 1 else 0) := by
  unfold recycledBelow
  rw [List.range_succ, List.filter_append, List.length_append]
  by_cases h : recycles s speed k = true <;> simp [List.filter_cons, h]

theorem enemiesUpTo_score (s : Game) (k : Nat)
    (hx : k ≤ s.enemyX.length) (hy : s.enemyY.length = s.enemyX.length) :
    (enemiesUpTo s k).score = s.score + (recycledBelow s s.ENEMY_SPEED k : Int) := by
  induction k with
  | zero => simp [enemiesUpTo, recycledBelow]
  | succ k ih =>
    have hsf := enemiesUpTo_sameFrame s k
    have hlater := enemiesUpTo_later s k k (Nat.le_refl k)
    rw [enemiesUpTo_succ, recycledBelow_succ]
    cases hf : s.enemyFlag.getD k false
    · have hrec : recycles s s.ENEMY_SPEED k = false := by
        unfold recycles
        rw [hf]
        rfl
      rw [updateEnemy_inactive _ k (by rw [hsf.flag]; exact hf), ih (by omega), hrec]
      simp
    · have hrec : recycles s s.ENEMY_SPEED k =
          decide (s.enemyY.getD k 0 + s.ENEMY_SPEED > SCREEN_HEIGHT) := by
        unfold recycles
        rw [hf]
        rfl
      have hat := updateEnemy_at (enemiesUpTo s k) k (by rw [hsf.flag]; exact hf)
        (by rw [hsf.lenX]; omega) (by rw [hsf.lenY]; omega)
      rw [hat.2.2, ih (by omega), hsf.speed, hlater.2, hrec]
      by_cases hc : s.enemyY.getD k 0 + s.ENEMY_SPEED > SCREEN_HEIGHT
      · rw [if_pos hc, if_pos (decide_eq_true hc)]
        push_cast
        ring
      · rw [if_neg hc, if_neg (by rw [decide_eq_true_eq]; exact hc)]
        simp

theorem enemiesUpTo_gameState (s : Game) (k : Nat) :
    ((enemiesUpTo s k).gameState = GameState.GAME_OVER ↔
      s.gameState = GameState.GAME_OVER ∨
      ∃ i, i < k ∧ s.enemyFlag.getD i false = true ∧
        checkCollision (carBox (enemiesUpTo s k)) (enemyBox (enemiesUpTo s k) i) = true) ∧
    ((enemiesUpTo s k).gameState = GameState.GAME_OVER ∨
      (enemiesUpTo s k).gameState = s.gameState) := by
  induction k with
  | zero =>
    refine ⟨⟨fun h => Or.inl h, fun h => ?_⟩, Or.inr rfl⟩
    rcases h with h | ⟨i, hi, _⟩
    · exact h
    · omega
  | succ k ih =>
    have hsf := enemiesUpTo_sameFrame s k
    have hbox : ∀ i, i < k → enemyBox (enemiesUpTo s (k + 1)) i = enemyBox (enemiesUpTo s k) i := by
      intro i hi
      have h := updateEnemy_other (enemiesUpTo s k) k i (by omega)
      rw [enemiesUpTo_succ]
      unfold enemyBox
      rw [h.1, h.2]
    have hcar : carBox (enemiesUpTo s (k + 1)) = carBox (enemiesUpTo s k) := by
      have h := updateEnemy_sameFrame (enemiesUpTo s k) k
      rw [enemiesUpTo_succ]
      unfold carBox
      rw [h.carX, h.carY]
    cases hf : s.enemyFlag.getD k false
    · have hstep : enemiesUpTo s (k + 1) = enemiesUpTo s k := by
        rw [enemiesUpTo_succ, updateEnemy_inactive _ k (by rw [hsf.flag]; exact hf)]
      rw [hstep]
      refine ⟨?_, ih.2⟩
      rw [ih.1]
      constructor
      · rintro (h | ⟨i, hi, hfi, hc⟩)
        · exact Or.inl h
        · exact Or.inr ⟨i, by omega, hfi, hc⟩
      · rintro (h | ⟨i, hi, hfi, hc⟩)
        · exact Or.inl h
        · have hne : i ≠ k := by
            rintro rfl
            rw [hf] at hfi
            exact Bool.false_ne_true hfi
          exact Or.inr ⟨i, by omega, hfi, hc⟩
    · have hgs := updateEnemy_gameState (enemiesUpTo s k) k (by rw [hsf.flag]; exact hf)
      rw [← enemiesUpTo_succ] at hgs
      by_cases hc : checkCollision (carBox (enemiesUpTo s (k + 1)))
          (enemyBox (enemiesUpTo s (k + 1)) k) = true
      · rw [if_pos hc] at hgs
        exact ⟨⟨fun _ => Or.inr ⟨k, by omega, hf, hc⟩, fun _ => hgs⟩, Or.inl hgs⟩
      · rw [if_neg hc] at hgs
        rw [hgs]
        refine ⟨?_, ih.2⟩
        rw [ih.1]
        constructor
        · rintro (h | ⟨i, hi, hfi, hci⟩)
          · exact Or.inl h
          · refine Or.inr ⟨i, by omega, hfi, ?_⟩
            rw [hcar, hbox i hi]
            exact hci
        · rintro (h | ⟨i, hi, hfi, hci⟩)
          · exact Or.inl h
          · have hne : i ≠ k := by
              rintro rfl
              exact hc hci
            refine Or.inr ⟨i, by omega, hfi, ?_⟩
            rw [hcar, hbox i (by omega)] at hci
            exact hci

/-! ## The steps of a frame before the loop over the obstacles -/

theorem moveCar_fields (s : Game) :
    (moveCar s).ENEMY_SPEED = s.ENEMY_SPEED ∧ (moveCar s).carY = s.carY ∧
    (moveCar s).enemyX = s.enemyX ∧ (moveCar s).enemyY = s.enemyY ∧
    (moveCar s).enemyFlag = s.enemyFlag ∧ (moveCar s).score = s.score ∧
    (moveCar s).lastSpeedIncreaseTime = s.lastSpeedIncreaseTime ∧
    (moveCar s).trackOffsetY = s.trackOffsetY ∧ (moveCar s).gameState = s.gameState ∧
    (moveCar s).randStream = s.randStream := by
  unfold moveCar
  simp only []
  split_ifs <;> simp

theorem moveCar_carX (s : Game) (h0 : 0 ≤ s.carX) (h1 : s.carX ≤ 480) (h5 : s.carX % 5 = 0) :
    0 ≤ (moveCar s).carX ∧ (moveCar s).carX ≤ 480 ∧ (moveCar s).carX % 5 = 0 := by
  unfold moveCar carSpeed SCREEN_WIDTH
  simp only []
  split_ifs <;> first | omega | (dsimp only at *; omega)

theorem increaseSpeed_fields (s : Game) (ticks : Nat) :
    (increaseSpeed s ticks).carX = s.carX ∧ (increaseSpeed s ticks).carY = s.carY ∧
    (increaseSpeed s ticks).enemyX = s.enemyX ∧ (increaseSpeed s ticks).enemyY = s.enemyY ∧
    (increaseSpeed s ticks).enemyFlag = s.enemyFlag ∧ (increaseSpeed s ticks).score = s.score ∧
    (increaseSpeed s ticks).trackOffsetY = s.trackOffsetY ∧
    (increaseSpeed s ticks).gameState = s.gameState ∧
    (increaseSpeed s ticks).randStream = s.randStream := by
  unfold increaseSpeed
  simp only []
  split_ifs <;> simp

theorem increaseSpeed_speed (s : Game) (ticks : Nat) :
    (5000 ≤ uint32Sub (ticks % UINT32_SIZE) s.lastSpeedIncreaseTime →
      (increaseSpeed s ticks).ENEMY_SPEED = s.ENEMY_SPEED + 1 ∧
      (increaseSpeed s ticks).lastSpeedIncreaseTime = ticks % UINT32_SIZE) ∧
    (uint32Sub (ticks % UINT32_SIZE) s.lastSpeedIncreaseTime < 5000 →
      (increaseSpeed s ticks).ENEMY_SPEED = s.ENEMY_SPEED ∧
      (increaseSpeed s ticks).lastSpeedIncreaseTime = s.lastSpeedIncreaseTime) := by
  unfold increaseSpeed
  simp only []
  constructor
  · intro h
    rw [if_pos h]
    exact ⟨rfl, rfl⟩
  · intro h
    rw [if_neg (by omega)]
    exact ⟨rfl, rfl⟩

theorem moveTrack_fields (s : Game) :
    (moveTrack s).ENEMY_SPEED = s.ENEMY_SPEED ∧ (moveTrack s).carX = s.carX ∧
    (moveTrack s).carY = s.carY ∧
    (moveTrack s).enemyX = s.enemyX ∧ (moveTrack s).enemyY = s.enemyY ∧
    (moveTrack s).enemyFlag = s.enemyFlag ∧ (moveTrack s).score = s.score ∧
    (moveTrack s).lastSpeedIncreaseTime = s.lastSpeedIncreaseTime ∧
    (moveTrack s).gameState = s.gameState ∧
    (moveTrack s).randStream = s.randStream ∧
    (moveTrack s).trackOffsetY =
      (if s.trackOffsetY + s.ENEMY_SPEED < SCREEN_HEIGHT then s.trackOffsetY + s.ENEMY_SPEED
        else 0) := by
  unfold moveTrack
  simp only []
  refine ⟨?_, ?_, ?_, ?_, ?_, ?_, ?_, ?_, ?_, ?_, ?_⟩ <;> split_ifs <;> first | rfl | omega

theorem beforeEnemies_fields (s : Game) (ticks : Nat) :
    (beforeEnemies s ticks).enemyX = s.enemyX ∧ (beforeEnemies s ticks).enemyY = s.enemyY ∧
    (beforeEnemies s ticks).enemyFlag = s.enemyFlag ∧ (beforeEnemies s ticks).score = s.score ∧
    (beforeEnemies s ticks).gameState = s.gameState ∧
    (beforeEnemies s ticks).carX = (moveCar s).carX ∧ (beforeEnemies s ticks).carY = s.carY := by
  have h1 := moveCar_fields s
  have h2 := increaseSpeed_fields (moveCar s) ticks
  have h3 := moveTrack_fields (increaseSpeed (moveCar s) ticks)
  obtain ⟨-, a2, a3, a4, a5, a6, -, -, a9, -⟩ := h1
  obtain ⟨b1, b2, b3, b4, b5, b6, -, b8, -⟩ := h2
  obtain ⟨-, c2, c3, c4, c5, c6, c7, -, c9, -, -⟩ := h3
  unfold beforeEnemies
  exact ⟨c4.trans (b3.trans a3), c5.trans (b4.trans a4), c6.trans (b5.trans a5),
    c7.trans (b6.trans a6), c9.trans (b8.trans a9), c2.trans b1, c3.trans (b2.trans a2)⟩

theorem beforeEnemies_speed (s : Game) (ticks : Nat) :
    (5000 ≤ uint32Sub (ticks % UINT32_SIZE) s.lastSpeedIncreaseTime →
      (beforeEnemies s ticks).ENEMY_SPEED = s.ENEMY_SPEED + 1 ∧
      (beforeEnemies s ticks).lastSpeedIncreaseTime = ticks % UINT32_SIZE) ∧
    (uint32Sub (ticks % UINT32_SIZE) s.lastSpeedIncreaseTime < 5000 →
      (beforeEnemies s ticks).ENEMY_SPEED = s.ENEMY_SPEED ∧
      (beforeEnemies s ticks).lastSpeedIncreaseTime = s.lastSpeedIncreaseTime) := by
  have h1 := moveCar_fields s
  have h2 := increaseSpeed_speed (moveCar s) ticks
  have h3 := moveTrack_fields (increaseSpeed (moveCar s) ticks)
  obtain ⟨a1, -, -, -, -, -, a7, -, -, -⟩ := h1
  obtain ⟨c1, -, -, -, -, -, -, c8, -, -, -⟩ := h3
  rw [a1, a7] at h2
  unfold beforeEnemies
  rw [c1, c8]
  exact h2

theorem beforeEnemies_track (s : Game) (ticks : Nat) :
    (beforeEnemies s ticks).trackOffsetY =
      (if s.trackOffsetY + (beforeEnemies s ticks).ENEMY_SPEED < SCREEN_HEIGHT
        then s.trackOffsetY + (beforeEnemies s ticks).ENEMY_SPEED else 0) := by
  have h1 := moveCar_fields s
  have h2 := increaseSpeed_fields (moveCar s) ticks
  have h3 := moveTrack_fields (increaseSpeed (moveCar s) ticks)
  obtain ⟨-, -, -, -, -, -, -, a8, -, -⟩ := h1
  obtain ⟨-, -, -, -, -, -, b7, -, -⟩ := h2
  obtain ⟨c1, -, -, -, -, -, -, -, -, -, c11⟩ := h3
  unfold beforeEnemies
  rw [c11, c1, b7, a8]

theorem playingFrame_eq (s : Game) (ticks : Nat) :
    playingFrame s ticks =
      enemiesUpTo (beforeEnemies s ticks) s.enemyX.length := by
  have h := (beforeEnemies_fields s ticks).1
  unfold playingFrame updateEnemies
  change enemiesUpTo (beforeEnemies s ticks) (beforeEnemies s ticks).enemyX.length = _
  rw [h]

theorem playingFrame_sameFrame (s : Game) (ticks : Nat) :
    SameFrame (beforeEnemies s ticks) (playingFrame s ticks) := by
  rw [playingFrame_eq]
  exact enemiesUpTo_sameFrame _ _

theorem frameSpeed_ge (s : Game) (ticks : Nat) :
    s.ENEMY_SPEED ≤ (playingFrame s ticks).ENEMY_SPEED := by
  rw [(playingFrame_sameFrame s ticks).speed]
  have h := beforeEnemies_speed s ticks
  by_cases hc : 5000 ≤ uint32Sub (ticks % UINT32_SIZE) s.lastSpeedIncreaseTime
  · rw [(h.1 hc).1]
    omega
  · rw [(h.2 (by omega)).1]

theorem frameSpeed_cases (s : Game) (ticks : Nat) :
    (playingFrame s ticks).ENEMY_SPEED = s.ENEMY_SPEED ∨
    (playingFrame s ticks).ENEMY_SPEED = s.ENEMY_SPEED + 1 := by
  rw [(playingFrame_sameFrame s ticks).speed]
  have h := beforeEnemies_speed s ticks
  by_cases hc : 5000 ≤ uint32Sub (ticks % UINT32_SIZE) s.lastSpeedIncreaseTime
  · exact Or.inr (h.1 hc).1
  · exact Or.inl (h.2 (by omega)).1

theorem gameLogic_playing (s : Game) (ticks : Nat) (hp : s.gameState = GameState.PLAYING) :
    gameLogic s ticks = playingFrame s ticks := by
  unfold gameLogic
  rw [hp]

theorem playingFrame_active (s : Game) (ticks i : Nat)
    (hy : s.enemyY.length = s.enemyX.length) (hi : i < s.enemyX.length)
    (hf : s.enemyFlag.getD i false = true) :
    (playingFrame s ticks).enemyY.getD i 0 =
      (if s.enemyY.getD i 0 + (playingFrame s ticks).ENEMY_SPEED > SCREEN_HEIGHT then -40
        else s.enemyY.getD i 0 + (playingFrame s ticks).ENEMY_SPEED) ∧
    (playingFrame s ticks).enemyX.getD i 0 =
      (if s.enemyY.getD i 0 + (playingFrame s ticks).ENEMY_SPEED > SCREEN_HEIGHT
        then spawnX i ((enemiesUpTo (beforeEnemies s ticks) i).randStream 0)
        else s.enemyX.getD i 0) := by
  have hb := beforeEnemies_fields s ticks
  have hsf := playingFrame_sameFrame s ticks
  have h := enemiesUpTo_active (beforeEnemies s ticks) i s.enemyX.length hi
    (by rw [hb.2.2.1]; exact hf) (by rw [hb.1]; exact hi) (by rw [hb.2.1, hy]; exact hi)
  rw [← playingFrame_eq, hb.1, hb.2.1, ← hsf.speed] at h
  exact h

theorem playingFrame_score (s : Game) (ticks : Nat)
    (hy : s.enemyY.length = s.enemyX.length) :
    (playingFrame s ticks).score =
      s.score + (recycledCount s (playingFrame s ticks).ENEMY_SPEED : Int) := by
  have hb := beforeEnemies_fields s ticks
  have hsf := playingFrame_sameFrame s ticks
  have h := enemiesUpTo_score (beforeEnemies s ticks) s.enemyX.length
    (by rw [hb.1]) (by rw [hb.1, hb.2.1]; exact hy)
  have hcount : recycledBelow (beforeEnemies s ticks) (beforeEnemies s ticks).ENEMY_SPEED
      s.enemyX.length = recycledCount s (playingFrame s ticks).ENEMY_SPEED := by
    unfold recycledCount recycledBelow recycles
    rw [hb.2.1, hb.2.2.1, hsf.speed]
  rw [← playingFrame_eq, hb.2.2.2.1, hcount] at h
  exact h

theorem playingFrame_gameState (s : Game) (ticks : Nat)
    (hp : s.gameState = GameState.PLAYING) :
    ((playingFrame s ticks).gameState = GameState.GAME_OVER ↔
      ∃ i, i < (playingFrame s ticks).enemyX.length ∧
        (playingFrame s ticks).enemyFlag.getD i false = true ∧
        checkCollision (carBox (playingFrame s ticks)) (enemyBox (playingFrame s ticks) i)
          = true) ∧
    ((playingFrame s ticks).gameState = GameState.GAME_OVER ∨
      (playingFrame s ticks).gameState = GameState.PLAYING) := by
  have hb := beforeEnemies_fields s ticks
  have hsf := playingFrame_sameFrame s ticks
  have h := enemiesUpTo_gameState (beforeEnemies s ticks) s.enemyX.length
  rw [← playingFrame_eq, hb.2.2.2.2.1, hp, ← hsf.flag] at h
  rw [hsf.lenX, hb.1]
  refine ⟨?_, h.2⟩
  rw [h.1]
  constructor
  · rintro (hc | hc)
    · exact absurd hc (by decide)
    · exact hc
  · exact fun hc => Or.inr hc

/-! ## The invariant -/

theorem inv_initialGame (rs : Nat → Nat) : Inv (initialGame rs) := by
  constructor <;> simp [initialGame, SCREEN_WIDTH, UINT32_SIZE]

theorem inv_playingFrame (s : Game) (ticks : Nat) (h : Inv s)
    (hp : s.gameState = GameState.PLAYING) : Inv (playingFrame s ticks) := by
  have hsf := playingFrame_sameFrame s ticks
  have hb := beforeEnemies_fields s ticks
  have hcar := moveCar_carX s h.carLo h.carHi h.carStep
  have hspeed := frameSpeed_ge s ticks
  have h2 := h.speed
  have hlen : s.enemyX.length = 6 := h.started (by rw [hp]; decide)
  have hgs := (enemiesUpTo_gameState (beforeEnemies s ticks) s.enemyX.length).2
  rw [← playingFrame_eq, hb.2.2.2.2.1, hp] at hgs
  have hscore := enemiesUpTo_score (beforeEnemies s ticks) s.enemyX.length
    (by rw [hb.1]) (by rw [hb.1, hb.2.1]; exact h.lenY)
  rw [← playingFrame_eq, hb.2.2.2.1] at hscore
  have htrack := beforeEnemies_track s ticks
  rw [← hsf.speed, ← hsf.track] at htrack
  have htime : (playingFrame s ticks).lastSpeedIncreaseTime < UINT32_SIZE := by
    rw [hsf.time]
    have hs := beforeEnemies_speed s ticks
    by_cases hc : 5000 ≤ uint32Sub (ticks % UINT32_SIZE) s.lastSpeedIncreaseTime
    · rw [(hs.1 hc).2]
      exact Nat.mod_lt _ (by decide)
    · rw [(hs.2 (by omega)).2]
      exact h.time
  have hlo := h.trackLo
  have hhi := h.trackHi
  refine ⟨?_, ?_, ?_, ?_, ?_, ?_, ?_, ?_, ?_, ?_, ?_, htime⟩
  · rw [hsf.carX, hb.2.2.2.2.2.1]; exact hcar.1
  · rw [hsf.carX, hb.2.2.2.2.2.1]; exact hcar.2.1
  · rw [hsf.carX, hb.2.2.2.2.2.1]; exact hcar.2.2
  · omega
  · rw [hscore]
    have := h.score
    omega
  · rw [htrack]
    split_ifs <;> omega
  · rw [htrack]
    unfold SCREEN_HEIGHT
    split_ifs with hc
    · unfold SCREEN_HEIGHT at hc
      exact hc
    · decide
  · rw [hsf.lenY, hsf.lenX, hb.1, hb.2.1]; exact h.lenY
  · rw [hsf.flag, hsf.lenX, hb.1, hb.2.2.1]; exact h.lenF
  · intro hw
    rcases hgs with hgs | hgs <;> rw [hgs] at hw <;> exact absurd hw (by decide)
  · intro _
    rw [hsf.lenX, hb.1]
    exact hlen

theorem handleEvent_start (s : Game) (ticks : Nat) (h : s.gameState = GameState.WAITING) :
    handleEvent s (SDL_Event.SDL_KEYDOWN Keycode.SDLK_o) ticks =
      { s with
        gameState := GameState.PLAYING
        enemyX := s.enemyX ++ (List.range 6).map (fun i => spawnX i (s.randStream i))
        enemyY := s.enemyY ++ (List.range 6).map spawnY
        enemyFlag := s.enemyFlag ++ List.replicate 6 true
        randStream := fun k => s.randStream (k + 6)
        lastSpeedIncreaseTime := ticks % UINT32_SIZE
        score := 0 } := by
  simp only [handleEvent, h, if_true, createEnemies_eq]

theorem handleEvent_restart (s : Game) (ticks : Nat) (h : s.gameState = GameState.GAME_OVER) :
    handleEvent s (SDL_Event.SDL_KEYDOWN Keycode.SDLK_r) ticks =
      { s with
        gameState := GameState.PLAYING
        carX := SCREEN_WIDTH / 2 - 20
        carY := 3 * SCREEN_HEIGHT / 4
        ENEMY_SPEED := 2
        enemyX := (List.range 6).map (fun i => spawnX i (s.randStream i))
        enemyY := (List.range 6).map spawnY
        enemyFlag := List.replicate 6 true
        randStream := fun k => s.randStream (k + 6)
        lastSpeedIncreaseTime := ticks % UINT32_SIZE
        score := 0 } := by
  simp only [handleEvent, h, if_true, resetGame, createEnemies_eq, List.nil_append]

theorem inv_handleEvent (s : Game) (e : SDL_Event) (ticks : Nat) (h : Inv s) :
    Inv (handleEvent s e ticks) := by
  have hmod : ticks % UINT32_SIZE < UINT32_SIZE := Nat.mod_lt _ (by decide)
  obtain ⟨h1, h2, h3, h4, h5, h6, h7, h8, h9, h10, h11, h12⟩ := h
  cases e with
  | SDL_QUIT => exact ⟨h1, h2, h3, h4, h5, h6, h7, h8, h9, h10, h11, h12⟩
  | other => exact ⟨h1, h2, h3, h4, h5, h6, h7, h8, h9, h10, h11, h12⟩
  | SDL_KEYUP sym =>
    cases sym <;> exact ⟨h1, h2, h3, h4, h5, h6, h7, h8, h9, h10, h11, h12⟩
  | SDL_KEYDOWN sym =>
    cases sym with
    | SDLK_o =>
      by_cases hw : s.gameState = GameState.WAITING
      · rw [handleEvent_start s ticks hw]
        have hlen := (h10 hw).1
        refine ⟨h1, h2, h3, h4, le_refl _, h6, h7, ?_, ?_, ?_, ?_, hmod⟩
        · simp [h8]
        · simp [h9]
        · intro hc
          exact absurd hc (show GameState.PLAYING ≠ GameState.WAITING by decide)
        · intro _
          simp [hlen]
      · simp only [handleEvent, hw, if_false]
        exact ⟨h1, h2, h3, h4, h5, h6, h7, h8, h9, h10, h11, h12⟩
    | SDLK_r =>
      by_cases hg : s.gameState = GameState.GAME_OVER
      · rw [handleEvent_restart s ticks hg]
        refine ⟨show (0 : Int) ≤ SCREEN_WIDTH / 2 - 20 by decide,
          show SCREEN_WIDTH / 2 - 20 ≤ 480 by decide,
          show (SCREEN_WIDTH / 2 - 20) % 5 = 0 by decide,
          le_refl _, le_refl _, h6, h7, ?_, ?_, ?_, ?_, hmod⟩
        · simp
        · simp
        · intro hc
          exact absurd hc (show GameState.PLAYING ≠ GameState.WAITING by decide)
        · intro _
          simp
      · simp only [handleEvent, hg, if_false]
        exact ⟨h1, h2, h3, h4, h5, h6, h7, h8, h9, h10, h11, h12⟩
    | SDLK_a =>
      simp only [handleEvent]
      split_ifs <;> exact ⟨h1, h2, h3, h4, h5, h6, h7, h8, h9, h10, h11, h12⟩
    | SDLK_d =>
      simp only [handleEvent]
      split_ifs <;> exact ⟨h1, h2, h3, h4, h5, h6, h7, h8, h9, h10, h11, h12⟩
    | SDLK_ESCAPE =>
      simp only [handleEvent]
      split_ifs <;> exact ⟨h1, h2, h3, h4, h5, h6, h7, h8, h9, h10, h11, h12⟩
    | SDLK_q =>
      simp only [handleEvent]
      split_ifs <;> exact ⟨h1, h2, h3, h4, h5, h6, h7, h8, h9, h10, h11, h12⟩
    | other => exact ⟨h1, h2, h3, h4, h5, h6, h7, h8, h9, h10, h11, h12⟩

theorem inv_gameLogic (s : Game) (ticks : Nat) (h : Inv s) : Inv (gameLogic s ticks) := by
  unfold gameLogic
  cases hg : s.gameState
  · exact h
  · exact inv_playingFrame s ticks h hg
  · exact h

theorem reachable_inv (s : Game) (h : Reachable s) : Inv s := by
  induction h with
  | start rs => exact inv_initialGame rs
  | event s e ticks _ ih => exact inv_handleEvent s e ticks ih
  | frame s ticks _ ih => exact inv_gameLogic s ticks ih

/-! ## The collision test -/

theorem SDL_HasIntersection_iff (A B : SDL_Rect) :
    SDL_HasIntersection A B = true ↔
      (0 < A.w ∧ 0 < A.h ∧ 0 < B.w ∧ 0 < B.h) ∧
      (A.x < B.x + B.w ∧ B.x < A.x + A.w ∧ A.y < B.y + B.h ∧ B.y < A.y + A.h) := by
  unfold SDL_HasIntersection
  simp only []
  split_ifs <;> simp only [Bool.false_eq_true, false_iff, true_iff] <;> omega

/-- Claim C1.  For rectangles of positive width and height `checkCollision` answers true
exactly when the two boxes overlap on both axes; the player box (100,540,70,70) collides
with the obstacle box (110,550,40,40) and does not collide with (300,550,40,40). -/
theorem checkCollision_iff_overlap (a b : SDL_Rect)
    (haw : 0 < a.w) (hah : 0 < a.h) (hbw : 0 < b.w) (hbh : 0 < b.h) :
    (checkCollision a b = true ↔
      (a.x < b.x + b.w ∧ b.x < a.x + a.w ∧ a.y < b.y + b.h ∧ b.y < a.y + a.h)) ∧
    checkCollision ⟨100, 540, 70, 70⟩ ⟨110, 550, 40, 40⟩ = true ∧
    checkCollision ⟨100, 540, 70, 70⟩ ⟨300, 550, 40, 40⟩ = false := by
  refine ⟨?_, by decide, by decide⟩
  unfold checkCollision
  rw [SDL_HasIntersection_iff]
  exact ⟨fun h => h.2, fun h => ⟨⟨haw, hah, hbw, hbh⟩, h⟩⟩

theorem checkCollision_iff_overlap_witness :
    (checkCollision ⟨0, 0, 70, 70⟩ ⟨69, 69, 40, 40⟩ = true ↔
      ((0 : Int) < 69 + 40 ∧ (69 : Int) < 0 + 70 ∧ (0 : Int) < 69 + 40 ∧ (69 : Int) < 0 + 70)) ∧
    checkCollision ⟨100, 540, 70, 70⟩ ⟨110, 550, 40, 40⟩ = true ∧
    checkCollision ⟨100, 540, 70, 70⟩ ⟨300, 550, 40, 40⟩ = false :=
  checkCollision_iff_overlap ⟨0, 0, 70, 70⟩ ⟨69, 69, 40, 40⟩
    (by decide) (by decide) (by decide) (by decide)

/-! ## The player stays on the screen -/

/-- Claim C2.  In every reachable state the x coordinate of the car lies between 0 and
`SCREEN_WIDTH - 70 = 510`, and it still does after the frame that follows, whatever
values the two movement flags have when that frame runs. -/
theorem carX_within_screen (s : Game) (hr : Reachable s) :
    (0 ≤ s.carX ∧ s.carX ≤ SCREEN_WIDTH - 70) ∧ SCREEN_WIDTH - 70 = 510 ∧
    ∀ (left right : Bool) (ticks : Nat),
      0 ≤ (gameLogic { s with moveLeft := left, moveRight := right } ticks).carX ∧
      (gameLogic { s with moveLeft := left, moveRight := right } ticks).carX
        ≤ SCREEN_WIDTH - 70 := by
  have h := reachable_inv s hr
  refine ⟨⟨h.carLo, ?_⟩, by decide, ?_⟩
  · have := h.carHi
    unfold SCREEN_WIDTH
    omega
  · intro left right ticks
    have h2 : Inv { s with moveLeft := left, moveRight := right } :=
      ⟨h.carLo, h.carHi, h.carStep, h.speed, h.score, h.trackLo, h.trackHi, h.lenY, h.lenF,
        h.waiting, h.started, h.time⟩
    have h3 := inv_gameLogic _ ticks h2
    refine ⟨h3.carLo, ?_⟩
    have := h3.carHi
    unfold SCREEN_WIDTH
    omega

theorem carX_within_screen_witness :
    Reachable sampleStart ∧
    ((0 ≤ sampleStart.carX ∧ sampleStart.carX ≤ SCREEN_WIDTH - 70) ∧ SCREEN_WIDTH - 70 = 510 ∧
    ∀ (left right : Bool) (ticks : Nat),
      0 ≤ (gameLogic { sampleStart with moveLeft := left, moveRight := right } ticks).carX ∧
      (gameLogic { sampleStart with moveLeft := left, moveRight := right } ticks).carX
        ≤ SCREEN_WIDTH - 70) :=
  ⟨Reachable.event _ _ _ (Reachable.start _),
    carX_within_screen sampleStart (Reachable.event _ _ _ (Reachable.start _))⟩

/-! ## Start and restart -/

theorem spawn_getD (f : Nat → Int) (l : List Int) (i : Nat) (hl : l = []) (hi : i < 6) :
    (l ++ (List.range 6).map f).getD i 0 = f i := by
  subst hl
  simp [hi]

theorem flags_getD (l : List Bool) (i : Nat) (hl : l = []) (hi : i < 6) :
    (l ++ List.replicate 6 true).getD i false = true := by
  subst hl
  interval_cases i <;> rfl

theorem spawnX_lane (i r : Nat) :
    ∃ jitter : Int, 0 ≤ jitter ∧ jitter < 100 ∧
      spawnX i r = 20 + ((i % 3 : Nat) : Int) * 200 + jitter :=
  ⟨((r % 100 : Nat) : Int), by omega, by omega, rfl⟩

/-- Claim C3.  In a reachable state whose session is `WAITING`, the key-down event of the
start key O at tick `ticks` gives session `PLAYING`, exactly 6 obstacles (all three vectors
have length 6, every obstacle active), score 0 and the difficulty timestamp `ticks`;
obstacle `i` is at `y = -(40 + 100 * i)` and `x = 20 + (i mod 3) * 200 + jitter` with
`0 <= jitter < 100`. -/
theorem start_key_in_waiting (s : Game) (ticks : Nat) (hr : Reachable s)
    (hw : s.gameState = GameState.WAITING) (ht : ticks < UINT32_SIZE) :
    (handleEvent s (SDL_Event.SDL_KEYDOWN Keycode.SDLK_o) ticks).gameState
      = GameState.PLAYING ∧
    (handleEvent s (SDL_Event.SDL_KEYDOWN Keycode.SDLK_o) ticks).enemyX.length = 6 ∧
    (handleEvent s (SDL_Event.SDL_KEYDOWN Keycode.SDLK_o) ticks).enemyY.length = 6 ∧
    (handleEvent s (SDL_Event.SDL_KEYDOWN Keycode.SDLK_o) ticks).enemyFlag.length = 6 ∧
    (handleEvent s (SDL_Event.SDL_KEYDOWN Keycode.SDLK_o) ticks).score = 0 ∧
    (handleEvent s (SDL_Event.SDL_KEYDOWN Keycode.SDLK_o) ticks).lastSpeedIncreaseTime
      = ticks ∧
    ∀ i : Nat, i < 6 →
      (handleEvent s (SDL_Event.SDL_KEYDOWN Keycode.SDLK_o) ticks).enemyFlag.getD i false
        = true ∧
      (handleEvent s (SDL_Event.SDL_KEYDOWN Keycode.SDLK_o) ticks).enemyY.getD i 0
        = -(40 + 100 * (i : Int)) ∧
      ∃ jitter : Int, 0 ≤ jitter ∧ jitter < 100 ∧
        (handleEvent s (SDL_Event.SDL_KEYDOWN Keycode.SDLK_o) ticks).enemyX.getD i 0
          = 20 + ((i % 3 : Nat) : Int) * 200 + jitter := by
  have h := reachable_inv s hr
  have hx : s.enemyX = [] := List.length_eq_zero.mp (h.waiting hw).1
  have hy : s.enemyY = [] := List.length_eq_zero.mp (by rw [h.lenY]; exact (h.waiting hw).1)
  have hf : s.enemyFlag = [] :=
    List.length_eq_zero.mp (by rw [h.lenF]; exact (h.waiting hw).1)
  rw [handleEvent_start s ticks hw]
  refine ⟨rfl, by simp [hx], by simp [hy], by simp [hf], rfl, Nat.mod_eq_of_lt ht, ?_⟩
  intro i hi
  refine ⟨flags_getD _ i hf hi, ?_, ?_⟩
  · show (s.enemyY ++ (List.range 6).map spawnY).getD i 0 = _
    rw [spawn_getD spawnY _ i hy hi]
    unfold spawnY
    ring
  · show ∃ jitter : Int, 0 ≤ jitter ∧ jitter < 100 ∧
      (s.enemyX ++ (List.range 6).map (fun i => spawnX i (s.randStream i))).getD i 0 = _
    rw [spawn_getD (fun i => spawnX i (s.randStream i)) _ i hx hi]
    exact spawnX_lane i _

theorem start_key_in_waiting_witness :
    (Reachable sampleWaiting ∧ sampleWaiting.gameState = GameState.WAITING ∧
      1000 < UINT32_SIZE) ∧
    sampleStart.gameState = GameState.PLAYING ∧
    sampleStart.enemyX = [35, 272, 509, 46, 283, 420] ∧
    sampleStart.enemyY = [-40, -140, -240, -340, -440, -540] ∧
    sampleStart.enemyFlag.length = 6 ∧ sampleStart.score = 0 ∧
    sampleStart.lastSpeedIncreaseTime = 1000 :=
  have h := start_key_in_waiting sampleWaiting 1000 (Reachable.start _) rfl (by decide)
  ⟨⟨Reachable.start _, rfl, by decide⟩, h.1, by decide, by decide, h.2.2.2.1, h.2.2.2.2.1,
    h.2.2.2.2.2.1⟩

/-- Claim C4.  In every state whose session is `GAME_OVER`, the key-down event of the
restart key R at tick `ticks` gives session `PLAYING`, the car back at its initial position
(`x = SCREEN_WIDTH / 2 - 20 = 270`, `y = 540`), speed 2, score 0, difficulty timestamp
`ticks`, and six new obstacles in place of the old ones, whatever the number of obstacles,
the score and the speed were before. -/
theorem restart_key_in_game_over (s : Game) (ticks : Nat)
    (hg : s.gameState = GameState.GAME_OVER) (ht : ticks < UINT32_SIZE) :
    (handleEvent s (SDL_Event.SDL_KEYDOWN Keycode.SDLK_r) ticks).gameState
      = GameState.PLAYING ∧
    (handleEvent s (SDL_Event.SDL_KEYDOWN Keycode.SDLK_r) ticks).carX = SCREEN_WIDTH / 2 - 20 ∧
    (handleEvent s (SDL_Event.SDL_KEYDOWN Keycode.SDLK_r) ticks).carX = 270 ∧
    (handleEvent s (SDL_Event.SDL_KEYDOWN Keycode.SDLK_r) ticks).carY = 540 ∧
    (handleEvent s (SDL_Event.SDL_KEYDOWN Keycode.SDLK_r) ticks).ENEMY_SPEED = 2 ∧
    (handleEvent s (SDL_Event.SDL_KEYDOWN Keycode.SDLK_r) ticks).score = 0 ∧
    (handleEvent s (SDL_Event.SDL_KEYDOWN Keycode.SDLK_r) ticks).lastSpeedIncreaseTime
      = ticks ∧
    (handleEvent s (SDL_Event.SDL_KEYDOWN Keycode.SDLK_r) ticks).enemyX.length = 6 ∧
    (handleEvent s (SDL_Event.SDL_KEYDOWN Keycode.SDLK_r) ticks).enemyY.length = 6 ∧
    (handleEvent s (SDL_Event.SDL_KEYDOWN Keycode.SDLK_r) ticks).enemyFlag.length = 6 ∧
    ∀ i : Nat, i < 6 →
      (handleEvent s (SDL_Event.SDL_KEYDOWN Keycode.SDLK_r) ticks).enemyFlag.getD i false
        = true ∧
      (handleEvent s (SDL_Event.SDL_KEYDOWN Keycode.SDLK_r) ticks).enemyY.getD i 0
        = -(40 + 100 * (i : Int)) ∧
      ∃ jitter : Int, 0 ≤ jitter ∧ jitter < 100 ∧
        (handleEvent s (SDL_Event.SDL_KEYDOWN Keycode.SDLK_r) ticks).enemyX.getD i 0
          = 20 + ((i % 3 : Nat) : Int) * 200 + jitter := by
  rw [handleEvent_restart s ticks hg]
  refine ⟨rfl, rfl, show SCREEN_WIDTH / 2 - 20 = 270 by decide,
    show 3 * SCREEN_HEIGHT / 4 = 540 by decide, rfl, rfl, Nat.mod_eq_of_lt ht, by simp, by simp,
    by simp, ?_⟩
  intro i hi
  refine ⟨?_, ?_, ?_⟩
  · have := flags_getD [] i rfl hi
    simpa using this
  · have := spawn_getD spawnY [] i rfl hi
    rw [List.nil_append] at this
    show ((List.range 6).map spawnY).getD i 0 = _
    rw [this]
    unfold spawnY
    ring
  · have := spawn_getD (fun i => spawnX i (s.randStream i)) [] i rfl hi
    rw [List.nil_append] at this
    show ∃ jitter : Int, 0 ≤ jitter ∧ jitter < 100 ∧
      ((List.range 6).map (fun i => spawnX i (s.randStream i))).getD i 0 = _
    rw [this]
    exact spawnX_lane i _

theorem restart_key_in_game_over_witness :
    (sampleGameOver.gameState = GameState.GAME_OVER ∧ 9000 < UINT32_SIZE) ∧
    sampleGameOver.score = 8 ∧ sampleGameOver.carX = 265 ∧
    (handleEvent sampleGameOver (SDL_Event.SDL_KEYDOWN Keycode.SDLK_r) 9000).gameState
      = GameState.PLAYING ∧
    (handleEvent sampleGameOver (SDL_Event.SDL_KEYDOWN Keycode.SDLK_r) 9000).carX = 270 ∧
    (handleEvent sampleGameOver (SDL_Event.SDL_KEYDOWN Keycode.SDLK_r) 9000).ENEMY_SPEED = 2 ∧
    (handleEvent sampleGameOver (SDL_Event.SDL_KEYDOWN Keycode.SDLK_r) 9000).score = 0 ∧
    (handleEvent sampleGameOver (SDL_Event.SDL_KEYDOWN Keycode.SDLK_r) 9000).enemyX.length
      = 6 :=
  have h := restart_key_in_game_over sampleGameOver 9000 (by decide) (by decide)
  ⟨⟨by decide, by decide⟩, by decide, by decide, h.1, h.2.2.1, h.2.2.2.2.1, h.2.2.2.2.2.1,
    h.2.2.2.2.2.2.2.1⟩

/-! ## The obstacles in a frame -/

/-- Claim C5.  In a `PLAYING` frame every active obstacle `i` first falls by the speed of
that frame: the value of `ENEMY_SPEED` when the loop over the obstacles runs, which is the
speed before the frame or, when the ramp fired in this frame, that speed plus one.  When
the new y exceeds `SCREEN_HEIGHT = 720`, y becomes exactly -40 and x becomes
`20 + (i mod 3) * 200 + jitter` with `0 <= jitter < 100`, a place inside lane `i mod 3`;
otherwise x is unchanged and y is the old y plus the speed. -/
theorem obstacle_falls_or_recycles (s : Game) (ticks i : Nat)
    (hp : s.gameState = GameState.PLAYING) (hy : s.enemyY.length = s.enemyX.length)
    (hi : i < s.enemyX.length) (hf : s.enemyFlag.getD i false = true) :
    SCREEN_HEIGHT = 720 ∧
    ((gameLogic s ticks).ENEMY_SPEED = s.ENEMY_SPEED ∨
      (gameLogic s ticks).ENEMY_SPEED = s.ENEMY_SPEED + 1) ∧
    (s.enemyY.getD i 0 + (gameLogic s ticks).ENEMY_SPEED > SCREEN_HEIGHT →
      (gameLogic s ticks).enemyY.getD i 0 = -40 ∧
      (∃ jitter : Int, 0 ≤ jitter ∧ jitter < 100 ∧
        (gameLogic s ticks).enemyX.getD i 0 = 20 + ((i % 3 : Nat) : Int) * 200 + jitter) ∧
      20 + ((i % 3 : Nat) : Int) * 200 ≤ (gameLogic s ticks).enemyX.getD i 0 ∧
      (gameLogic s ticks).enemyX.getD i 0 < 20 + ((i % 3 : Nat) : Int) * 200 + 100) ∧
    (¬ (s.enemyY.getD i 0 + (gameLogic s ticks).ENEMY_SPEED > SCREEN_HEIGHT) →
      (gameLogic s ticks).enemyX.getD i 0 = s.enemyX.getD i 0 ∧
      (gameLogic s ticks).enemyY.getD i 0
        = s.enemyY.getD i 0 + (gameLogic s ticks).ENEMY_SPEED) := by
  rw [gameLogic_playing s ticks hp]
  obtain ⟨h1, h2⟩ := playingFrame_active s ticks i hy hi hf
  refine ⟨rfl, frameSpeed_cases s ticks, ?_, ?_⟩
  · intro hc
    rw [if_pos hc] at h1 h2
    obtain ⟨j, hj0, hj1, hj⟩ :=
      spawnX_lane i ((enemiesUpTo (beforeEnemies s ticks) i).randStream 0)
    rw [← h2] at hj
    exact ⟨h1, ⟨j, hj0, hj1, hj⟩, by omega, by omega⟩
  · intro hc
    rw [if_neg hc] at h1 h2
    exact ⟨h2, h1⟩

theorem obstacle_falls_or_recycles_witness :
    (sampleCrash.gameState = GameState.PLAYING ∧
      sampleCrash.enemyY.length = sampleCrash.enemyX.length ∧
      0 < sampleCrash.enemyX.length ∧ sampleCrash.enemyFlag.getD 0 false = true) ∧
    sampleCrash.enemyY.getD 0 0 = 719 ∧ (gameLogic sampleCrash 6016).ENEMY_SPEED = 3 ∧
    (gameLogic sampleCrash 6016).enemyY.getD 0 0 = -40 ∧
    (gameLogic sampleCrash 6016).enemyX.getD 0 0 = 35 ∧
    (gameLogic sampleCrash 6016).enemyX = [35, 280, 450, 60, 290, 460] ∧
    (gameLogic sampleCrash 6016).enemyY = [-40, 501, 303, 203, 103, 3] :=
  have h := obstacle_falls_or_recycles sampleCrash 6016 0 rfl rfl (by decide) rfl
  ⟨⟨rfl, rfl, by decide, rfl⟩, by decide, by decide, (h.2.2.1 (by decide)).1, by decide,
    by decide, by decide⟩

/-! ## Score -/

/-- Claim C8.  After a `PLAYING` frame the session is `GAME_OVER` exactly when some active
obstacle, at the position it has after that frame, intersects the 70x70 box of the car;
otherwise the session is still `PLAYING`.  The loop has no early exit: every active
obstacle, whether or not an obstacle stored before it intersects the car, has received its
position update, and the score has grown by the number of all recycled obstacles. -/
theorem game_over_iff_collision (s : Game) (ticks : Nat)
    (hp : s.gameState = GameState.PLAYING) (hy : s.enemyY.length = s.enemyX.length) :
    ((gameLogic s ticks).gameState = GameState.GAME_OVER ↔
      ∃ i, i < (gameLogic s ticks).enemyX.length ∧
        (gameLogic s ticks).enemyFlag.getD i false = true ∧
        checkCollision ⟨(gameLogic s ticks).carX, (gameLogic s ticks).carY, 70, 70⟩
          ⟨(gameLogic s ticks).enemyX.getD i 0, (gameLogic s ticks).enemyY.getD i 0, 40, 40⟩
          = true) ∧
    ((gameLogic s ticks).gameState = GameState.GAME_OVER ∨
      (gameLogic s ticks).gameState = GameState.PLAYING) ∧
    (∀ i, i < s.enemyX.length → s.enemyFlag.getD i false = true →
      (gameLogic s ticks).enemyY.getD i 0 =
        (if s.enemyY.getD i 0 + (gameLogic s ticks).ENEMY_SPEED > SCREEN_HEIGHT then -40
          else s.enemyY.getD i 0 + (gameLogic s ticks).ENEMY_SPEED)) ∧
    (gameLogic s ticks).score
      = s.score + (recycledCount s (gameLogic s ticks).ENEMY_SPEED : Int) := by
  rw [gameLogic_playing s ticks hp]
  have h := playingFrame_gameState s ticks hp
  exact ⟨h.1, h.2, fun i hi hf => (playingFrame_active s ticks i hy hi hf).1,
    playingFrame_score s ticks hy⟩

theorem game_over_iff_collision_witness :
    (sampleCrash.gameState = GameState.PLAYING ∧
      sampleCrash.enemyY.length = sampleCrash.enemyX.length) ∧
    (gameLogic sampleCrash 6016).gameState = GameState.GAME_OVER ∧
    checkCollision ⟨(gameLogic sampleCrash 6016).carX, (gameLogic sampleCrash 6016).carY, 70, 70⟩
      ⟨(gameLogic sampleCrash 6016).enemyX.getD 1 0,
        (gameLogic sampleCrash 6016).enemyY.getD 1 0, 40, 40⟩ = true ∧
    (gameLogic sampleCrash 6016).enemyY.getD 5 0 = 3 ∧
    (gameLogic sampleStart 1016).gameState = GameState.PLAYING :=
  have h := game_over_iff_collision sampleCrash 6016 rfl rfl
  ⟨⟨rfl, rfl⟩, h.1.mpr ⟨1, by decide, by decide, by decide⟩, by decide,
    (h.2.2.1 5 (by decide) (by decide)).trans (by decide), by decide⟩

/-! ## The obstacle vectors -/

/-- Claim C9.  In every reachable state the three obstacle vectors have the same length;
the length is 0 while the session is `WAITING` and 6 when it is `PLAYING` or `GAME_OVER`;
a `PLAYING` frame, from any state, leaves the three lengths as they are. -/
theorem obstacle_vectors_in_lockstep (s : Game) (hr : Reachable s) :
    (s.enemyY.length = s.enemyX.length ∧ s.enemyFlag.length = s.enemyX.length) ∧
    (s.gameState = GameState.WAITING → s.enemyX.length = 0) ∧
    (s.gameState = GameState.PLAYING ∨ s.gameState = GameState.GAME_OVER →
      s.enemyX.length = 6) ∧
    ∀ (q : Game) (ticks : Nat), q.gameState = GameState.PLAYING →
      (gameLogic q ticks).enemyX.length = q.enemyX.length ∧
      (gameLogic q ticks).enemyY.length = q.enemyY.length ∧
      (gameLogic q ticks).enemyFlag.length = q.enemyFlag.length := by
  have h := reachable_inv s hr
  refine ⟨⟨h.lenY, h.lenF⟩, fun hw => (h.waiting hw).1, ?_, ?_⟩
  · intro hg
    apply h.started
    rcases hg with hg | hg <;> rw [hg] <;> decide
  · intro q ticks hq
    rw [gameLogic_playing q ticks hq]
    have hsf := playingFrame_sameFrame q ticks
    have hb := beforeEnemies_fields q ticks
    exact ⟨by rw [hsf.lenX, hb.1], by rw [hsf.lenY, hb.2.1], by rw [hsf.flag, hb.2.2.1]⟩

theorem obstacle_vectors_in_lockstep_witness :
    Reachable (gameLogic sampleStart 1016) ∧
    (gameLogic sampleStart 1016).gameState = GameState.PLAYING ∧
    (gameLogic sampleStart 1016).enemyX.length = 6 ∧
    (gameLogic sampleStart 1016).enemyY.length = (gameLogic sampleStart 1016).enemyX.length ∧
    (gameLogic sampleStart 1016).enemyFlag.length
      = (gameLogic sampleStart 1016).enemyX.length ∧
    sampleWaiting.enemyX.length = 0 :=
  have hr : Reachable (gameLogic sampleStart 1016) :=
    Reachable.frame _ _ (Reachable.event _ _ _ (Reachable.start _))
  have h := obstacle_vectors_in_lockstep (gameLogic sampleStart 1016) hr
  ⟨hr, by decide, h.2.2.1 (Or.inl (by decide)), h.1.1, h.1.2,
    (obstacle_vectors_in_lockstep sampleWaiting (Reachable.start _)).2.1 rfl⟩

/-! ## The track -/

end CarGame
